import Mathlib

/-!
Verification of the `AppLauncher` launch/attach orchestration
(`appCenterClient.d.ts`, second document: the Cordova/Ionic app launcher).

The JavaScript source is embedded shallowly: each relevant routine becomes a
pure Lean function over `String`/`List Char`, with the handful of fixed regular
expressions implemented as bespoke matchers that follow JavaScript regex
semantics (leftmost match, ordered alternation, greedy quantifiers with
backtracking, `.` not matching line terminators, `/i` as ASCII case folding).
Child-process output, HTTP responses and the environment are passed in as
explicit values; promise resolution/rejection of the dev-server milestone
deferreds is modelled as an ordered event trace.
-/

/-! ## JavaScript string primitives -/

/-- JavaScript `\s` (ASCII part, which is all the source's inputs use):
space, tab, LF, VT, FF, CR. -/
def isJsWS (c : Char) : Bool :=
  c = ' ' || c = '\t' || c = '\n' || c = '\x0b' || c = '\x0c' || c = '\r'

/-- JavaScript regex line terminators (`.` matches none of these). -/
def isLineTerm (c : Char) : Bool :=
  c = '\n' || c = '\r' || c = Char.ofNat 8232 || c = Char.ofNat 8233

/-- JavaScript `\w`: ASCII letters, digits and underscore. -/
def isWordChar (c : Char) : Bool :=
  c.isAlpha || c.isDigit || c = '_'

/-- Case-insensitive prefix test (ASCII folding, as used by `/i` regexes). -/
def isPrefixCI : List Char → List Char → Bool
  | [], _ => true
  | _ :: _, [] => false
  | p :: ps, c :: cs => (p.toLower = c.toLower) && isPrefixCI ps cs

/-- Case-insensitive substring test: JS `/literal/i.test(s)`. -/
def containsCI (needle : List Char) : List Char → Bool
  | [] => needle.isEmpty
  | s@(_ :: rest) => isPrefixCI needle s || containsCI needle rest

/-- Case-sensitive substring test: JS `s.indexOf(needle) !== -1` /
`/literal/.test(s)`. -/
def containsStr (needle : List Char) : List Char → Bool
  | [] => needle.isEmpty
  | s@(_ :: rest) => needle.isPrefixOf s || containsStr needle rest

/-- JS `String.prototype.toLowerCase` (ASCII folding). -/
def jsLower (s : String) : String := ⟨s.data.map Char.toLower⟩

/-- JS `s.split("\n")`. -/
def splitLinesGo : List Char → List Char → List (List Char)
  | [], cur => [cur.reverse]
  | '\n' :: rest, cur => cur.reverse :: splitLinesGo rest []
  | c :: rest, cur => splitLinesGo rest (c :: cur)

def splitLines (s : List Char) : List (List Char) := splitLinesGo s []

/-- JS `s.split(/[\s\r]+/)`: fields separated by maximal whitespace runs; a
leading (trailing) separator run yields a leading (trailing) empty field. -/
def splitWSGo : Nat → List Char → List Char → List (List Char)
  | 0, s, cur => [cur.reverse ++ s]
  | _ + 1, [], cur => [cur.reverse]
  | fuel + 1, c :: rest, cur =>
    if isJsWS c then cur.reverse :: splitWSGo fuel (rest.dropWhile isJsWS) []
    else splitWSGo fuel rest (c :: cur)

def splitWS (s : List Char) : List (List Char) := splitWSGo s.length s []

/-- JS `s.split(", ")` (used on the dev server's `External:` address list). -/
def splitCommaSpaceGo : List Char → List Char → List (List Char)
  | ',' :: ' ' :: rest, cur => cur.reverse :: splitCommaSpaceGo rest []
  | c :: rest, cur => splitCommaSpaceGo rest (c :: cur)
  | [], cur => [cur.reverse]

def splitCommaSpace (s : List Char) : List (List Char) := splitCommaSpaceGo s []

/-- JS `String.prototype.trim`. -/
def jsTrim (s : List Char) : List Char :=
  ((s.dropWhile isJsWS).reverse.dropWhile isJsWS).reverse

/-- JS `s.replace(pat, "")` with a plain-text (or literal-only regex) pattern:
removes the first occurrence of `pat`, if any. -/
def replaceFirstSub (pat : List Char) : List Char → List Char
  | [] => []
  | s@(c :: rest) =>
    if pat.isPrefixOf s ∧ pat ≠ [] then s.drop pat.length
    else c :: replaceFirstSub pat rest

/-- JS `Array.prototype.indexOf`, returning `-1` when absent. -/
def jsIndexOf (l : List String) (x : String) : Int :=
  if l.contains x then ((l.indexOf x : Nat) : Int) else -1

/-- JS `array[i]` for a possibly negative index: `undefined` (`none`) for
`i = -1` or out of range. -/
def getFieldAt (fields : List String) (i : Int) : Option String :=
  if i < 0 then none else fields.get? i.toNat

/-- JS `array.join(sep)`. -/
def joinSep (sep : List Char) : List (List Char) → List Char
  | [] => []
  | [x] => x
  | x :: y :: t => x ++ sep ++ joinSep sep (y :: t)

/-! ## `launchAndroid`: CLI argument construction (launch path)

Source, `launchAndroid`: builds `args = ["run", "android"]`, then either the
request's `runArguments`, or the project's discovered run arguments, or the
default `--device`/`--emulator`, `--verbose`, optional `--target=`, optional
`--livereload`; `--livereload` in the final list routes the launch through
`startIonicDevServer`. -/

/-- The fields of `ICordovaLaunchRequestArgs` that `launchAndroid`'s argument
construction reads.  `runArguments` is `none` when absent on the request. -/
structure LaunchArgsModel where
  target : String
  runArguments : Option (List String)
  ionicLiveReload : Bool
deriving DecidableEq, Repr

/-- JS truthiness of `xs && xs.length > 0` / `xs && xs.length` for a possibly
absent array. -/
def optHasElems : Option (List String) → Bool
  | some l => l.length > 0
  | none => false

/-- `launchAndroid`, argument-construction fragment.
`isIonicAngularProject` stands for
`CordovaProjectHelper.isIonicAngularProjectByProjectType(projectType)` (an
imported predicate on the project descriptor, passed here as its value), and
`projRunArguments` for the `runArguments` discovered from the project. -/
def launchAndroidArgs (launchArgs : LaunchArgsModel) (isIonicAngularProject : Bool)
    (projRunArguments : Option (List String)) : List String :=
  let isDevice := jsLower launchArgs.target = "device"
  let args := ["run", "android"]
  if optHasElems launchArgs.runArguments then args ++ launchArgs.runArguments.getD []
  else if optHasElems projRunArguments then args ++ projRunArguments.getD []
  else
    let args := args ++ [if isDevice then "--device" else "--emulator", "--verbose"]
    let args :=
      if ["device", "emulator"].contains (jsLower launchArgs.target) then args
      else args ++ ["--target=" ++ launchArgs.target]
    if launchArgs.ionicLiveReload ∧ isIonicAngularProject then args ++ ["--livereload"]
    else args

/-- `launchAndroid`'s dev-server routing test: `args.indexOf("--livereload") > -1`. -/
def launchAndroidUsesDevServer (args : List String) : Bool :=
  args.contains "--livereload"

/-! ## `attachAndroid`: abstract-socket discovery over `/proc/net/unix`

Source, `findAbstractNameFunction`: splits the `adb shell cat /proc/net/unix`
output into lines, parses the header with `/[\s\r]+/` to locate the
`Flags`/`St`/`Path` columns, and scans the remaining rows for the app's debug
socket. -/

/-- The row fields, as the source computes them:
`line.split(/[\s\r]+/)`. -/
def socketFields (line : String) : List String :=
  (splitWS line.data).map (fun l => String.mk l)

/-- One iteration of the row loop in `findAbstractNameFunction`:
`none` models `continue` (and the loop falling through), `some` the
`return pathField.substr(1)`.  A row whose `Path` column lies beyond its
fields (`pathField` `undefined` in JS, where `.length` would throw) is treated
as not selected; the loop never reaches that state for a well-formed header. -/
def socketRowMatch (flagsIdx stIdx pathIdx : Int) (pid appPackageName : String)
    (line : String) : Option String :=
  let fields := socketFields line
  if fields.length < 8 then none
  else if getFieldAt fields flagsIdx = some "00010000" then
    if getFieldAt fields stIdx = some "01" then
      match getFieldAt fields pathIdx with
      | some pathField =>
        if pathField.data.head? = some '@' then
          if "_devtools_remote".data <:+: pathField.data then
            if pathField = "@webview_devtools_remote_" ++ pid then
              some (String.mk (pathField.data.drop 1))
            else if pathField = "@" ++ appPackageName ++ "_devtools_remote" then
              some (String.mk (pathField.data.drop 1))
            else none
          else none
        else none
      | none => none
    else none
  else none

/-- `findAbstractNameFunction`, socket-table fragment: header parsing plus the
row scan (first selected row wins; `none` models the loop running off the end,
which the enclosing `retryAsync` treats as a failed attempt). -/
def findAbstractNameFunction (pid appPackageName : String)
    (getSocketsResult : String) : Option String :=
  let lines := (splitLines getSocketsResult.data).map (fun l => String.mk l)
  let keys := socketFields (lines.headD "")
  let flagsIdx := jsIndexOf keys "Flags"
  let stIdx := jsIndexOf keys "St"
  let pathIdx := jsIndexOf keys "Path"
  lines.tail.findSome? (socketRowMatch flagsIdx stIdx pathIdx pid appPackageName)

/-! ## `attachAndroid`: target device selection from `adb devices` output -/

/-- `/\w+\tdevice/.test(line)`: some word character immediately followed by
`"\tdevice"`. -/
def hasWordTabDevice : List Char → Bool
  | [] => false
  | c :: rest => (isWordChar c && "\tdevice".data.isPrefixOf rest) || hasWordTabDevice rest

/-- `deviceFilter` from `attachAndroid`:
`/\w+\tdevice/.test(line) && !/emulator/.test(line)`. -/
def deviceFilter (line : String) : Bool :=
  hasWordTabDevice line.data && !containsStr "emulator".data line.data

/-- `emulatorFilter` from `attachAndroid`:
`/device/.test(line) && /emulator/.test(line)`. -/
def emulatorFilter (line : String) : Bool :=
  containsStr "device".data line.data && containsStr "emulator".data line.data

/-- `targetFilter` from `attachAndroid`.  For a concrete serial the source
evaluates `line.match(attachArgs.target)`, i.e. the serial is used as a regex
pattern; for metacharacter-free serials (the only values adb produces) that is
substring containment, which is how it is modelled. -/
def targetFilter (target : String) (line : String) : Bool :=
  if jsLower target = "device" then deviceFilter line
  else if jsLower target = "emulator" then emulatorFilter line
  else containsStr target.data line.data

/-- The per-line cleanup `line.replace(/\tdevice/, "").replace("\r", "")`. -/
def cleanDeviceLine (line : String) : String :=
  String.mk (replaceFirstSub "\r".data (replaceFirstSub "\tdevice".data line.data))

/-- The survivors of `devicesOutput.split("\n").filter(targetFilter)`. -/
def adbSurvivors (target devicesOutput : String) : List String :=
  ((splitLines devicesOutput.data).map (fun l => String.mk l)).filter (targetFilter target)

/-- `attachAndroid`, device-selection fragment: takes the first survivor
(after cleanup); a missing or empty first survivor (`!result`) raises the
target-not-found error. -/
def attachAndroidPickDevice (target devicesOutput : String) : Except String String :=
  match ((adbSurvivors target devicesOutput).map cleanDeviceLine).head? with
  | none => .error ("Unable to find target " ++ target)
  | some r => if r = "" then .error ("Unable to find target " ++ target) else .ok r

/-! ## `checkIfTargetIsiOSSimulator` (used by `launchIos` and `attachIos`) -/

/-- The invalid-target message raised by `simulatorTargetIsNotSupported`. -/
def iosInvalidTargetMessage : String :=
  "Invalid target. Please, check target parameter value in your debug configuration and make sure it's a valid iPhone device identifier. Proceed to https://aka.ms/AA3xq86 for more information."

/-- First match of `/(.*)(?=,)/` anchored at the start of `s`: the prefix up
to the last comma of the current line, if that line has a comma. -/
def dotStarCommaHere (s : List Char) : Option (List Char) :=
  let core := s.takeWhile (fun c => !isLineTerm c)
  if ',' ∈ core then some (((core.reverse.dropWhile (fun c => c != ',')).drop 1).reverse)
  else none

/-- First match of `/(.*)(?=,)/gm` over the whole string (leftmost position). -/
def firstDotStarComma : List Char → Option (List Char)
  | [] => none
  | s@(_ :: rest) => dotStarCommaHere s <|> firstDotStarComma rest

/-- Per-line entry of the `emulators` array in `checkIfTargetIsiOSSimulator`:
`value.match(/(.*)(?=,)/gm)` is `null` (`none`) without a comma, else the
first match with its first tab removed. -/
def parseSimLine (value : String) : Option String :=
  match firstDotStarComma value.data with
  | none => none
  | some m => some (String.mk (replaceFirstSub ['\t'] m))

/-- The `emulators` array: strip the `Available iOS Simulators:` banner, split
into lines, parse each. -/
def parsedEmulatorEntries (listOutput : String) : List (Option String) :=
  let cleaned := replaceFirstSub "Available iOS Simulators:".data listOutput.data
  (splitLines cleaned).map (fun l => parseSimLine (String.mk l))

/-- `checkIfTargetIsiOSSimulator`: the `"emulator"` alias fails immediately,
and a target that appears among the parsed simulator list entries also fails
with the same invalid-target error (`if (result) simulatorTargetIsNotSupported()`);
all other targets pass. -/
def checkIfTargetIsiOSSimulator (target : String) (listOutput : String) :
    Except String Unit :=
  if target = "emulator" then .error iosInvalidTargetMessage
  else if (parsedEmulatorEntries listOutput).contains (some target) then
    .error iosInvalidTargetMessage
  else .ok ()

/-! ## `attachIos`: webview discovery (`findWebViews`) -/

/-- One entry of the webview list served at `http://localhost:<port>/json`
(only its `url` field is read by `findWebViews`). -/
structure WebViewEntry where
  url : String
deriving DecidableEq, Repr

/-- Result of one successful `findWebViews` probe.  `usedFallback` records the
logged single-webview fallback
(`"Unable to find target app webview, trying to fallback to the only running webview"`). -/
structure FindWebViewsResult where
  relevantViews : List WebViewEntry
  targetPort : Nat
  usedFallback : Bool
deriving DecidableEq, Repr

/-- JS `encodeURIComponent`: UTF-8 percent-encoding of everything outside
`A-Z a-z 0-9 - _ . ! ~ * ' ( )`, with uppercase hex digits. -/
def encUnreserved (c : Char) : Bool :=
  c.isAlphanum || c = '-' || c = '_' || c = '.' || c = '!' || c = '~' ||
    c = '*' || c = Char.ofNat 39 || c = '(' || c = ')'

def hexDigitU (n : Nat) : Char :=
  if n < 10 then Char.ofNat (48 + n) else Char.ofNat (55 + n)

def utf8BytesOf (n : Nat) : List Nat :=
  if n < 128 then [n]
  else if n < 2048 then [192 + n / 64, 128 + n % 64]
  else if n < 65536 then [224 + n / 4096, 128 + (n / 64) % 64, 128 + n % 64]
  else [240 + n / 262144, 128 + (n / 4096) % 64, 128 + (n / 64) % 64, 128 + n % 64]

def encodeURIComponent (s : String) : String :=
  String.mk ((s.data.map (fun c =>
    if encUnreserved c then [c]
    else ((utf8BytesOf c.toNat).map
      (fun b => ['%', hexDigitU (b / 16), hexDigitU (b % 16)])).flatten)).flatten)

/-- The webview filter inside `findWebViews`: with live reload active
(`this.ionicDevServerUrls` set) an entry survives when its url starts with one
of the dev-server urls (`entry.url.indexOf(url) === 0`); otherwise when its
url contains the URL-encoded package path
(`entry.url.indexOf(encodeURIComponent(packagePath)) !== -1`). -/
def webviewFilter (ionicDevServerUrls : Option (List String)) (packagePath : String)
    (entry : WebViewEntry) : Bool :=
  match ionicDevServerUrls with
  | some urls => urls.any (fun url => url.data.isPrefixOf entry.url.data)
  | none => containsStr (encodeURIComponent packagePath).data entry.url.data

/-- One probe of `findWebViews`, given the parsed webview list of this attempt:
filter; on no match fall back to a sole webview (with the logged warning),
else fail with `"Unable to find target app"` (the message also produced by the
surrounding `catch`). -/
def findWebViewsProbe (ionicDevServerUrls : Option (List String)) (packagePath : String)
    (targetPort : Nat) (webviewsList : List WebViewEntry) :
    Except String FindWebViewsResult :=
  let foundWebViews := webviewsList.filter (webviewFilter ionicDevServerUrls packagePath)
  if foundWebViews.length = 0 ∧ webviewsList.length = 1 then
    .ok ⟨webviewsList, targetPort, true⟩
  else if foundWebViews.length = 0 then .error "Unable to find target app"
  else .ok ⟨foundWebViews, targetPort, false⟩

/-- Modelled from the spec: the `retryAsync` helper imported from
`extensionHelper` (the spec's RetryRunner, §4.1), whose implementation is not
part of the examined source file.  The probe runs up to `maxAttempts` times; a
rejection, or a resolution the acceptance test refuses, counts as a failed
attempt followed by a fixed inter-attempt delay; exhaustion rejects with the
failure message.  The probe takes the (zero-based) attempt index so that each
attempt may observe fresh external data; the second component counts the probe
invocations actually performed. -/
def retryAsync (probe : Nat → Except String α) (accept : α → Bool)
    (failureMessage : String) : Nat → Nat → Except String α × Nat
  | 0, _ => (.error failureMessage, 0)
  | maxAttempts + 1, i =>
    match probe i with
    | .ok r =>
      if accept r then (.ok r, 1)
      else ((retryAsync probe accept failureMessage maxAttempts (i + 1)).1,
            (retryAsync probe accept failureMessage maxAttempts (i + 1)).2 + 1)
    | .error _ =>
      ((retryAsync probe accept failureMessage maxAttempts (i + 1)).1,
       (retryAsync probe accept failureMessage maxAttempts (i + 1)).2 + 1)

/-- `findWebViews`: the probe wrapped in
`retry(..., (result) => result.relevantViews.length > 0, 5)`, i.e.
`retryAsync(func, condition, 5, 1, attachArgs.attachDelay, "Unable to find webview")`.
`responses i` is the webview list the `i`-th HTTP fetch returns. -/
def findWebViews (ionicDevServerUrls : Option (List String)) (packagePath : String)
    (targetPort : Nat) (responses : Nat → List WebViewEntry) :
    Except String FindWebViewsResult × Nat :=
  retryAsync (fun i => findWebViewsProbe ionicDevServerUrls packagePath targetPort (responses i))
    (fun r => decide (r.relevantViews.length > 0)) "Unable to find webview" 5 0

/-! ## `startIonicDevServer`: the stream readiness detector

`serverOutputHandler` accumulates stdout into `serverOut` and drives two
deferreds.  The handler's calls to `serverDeferred.resolve`,
`appDeferred.resolve`, `serverDeferred.reject` and `appDeferred.reject` are
modelled as an ordered event trace (a deferred ignores every call after the
first; the trace records the calls the handler makes, in source order). -/

/-- Group 2 of `SERVER_URL_RE` continued after a matched phrase-plus-colon:
`.*` is greedy and cannot cross a line terminator, so the capture is
`http:\/\/.[^\s]*` at the last viable position on the rest of the line. -/
def httpGroupIn : List Char → Option (List Char)
  | [] => none
  | c :: rest =>
    match httpGroupIn rest with
    | some g => some g
    | none =>
      if isPrefixCI "http://".data (c :: rest) then
        match (c :: rest).drop 7 with
        | [] => none
        | d :: r2 => some ((c :: rest).take 7 ++ d :: r2.takeWhile (fun ch => !isJsWS ch))
      else none

/-- `SERVER_URL_RE` = `/(dev server running|Running dev server|Local):.*(http:\/\/.[^\s]*)/gmi`
attempted at the start of `s`: alternatives in order, then `:`, then the
greedy same-line search for the URL capture. -/
def tryServerUrlPhrase (phrase : List Char) (s : List Char) : Option (List Char) :=
  if isPrefixCI phrase s then
    match s.drop phrase.length with
    | ':' :: rest => httpGroupIn (rest.takeWhile (fun c => !isLineTerm c))
    | _ => none
  else none

def serverUrlMatchAt (s : List Char) : Option (List Char) :=
  tryServerUrlPhrase "dev server running".data s <|>
  tryServerUrlPhrase "Running dev server".data s <|>
  tryServerUrlPhrase "Local".data s

/-- `SERVER_URL_RE.exec(serverOut)`, group 2 of the leftmost match. -/
def serverUrlMatch : List Char → Option (List Char)
  | [] => none
  | s@(_ :: rest) => serverUrlMatchAt s <|> serverUrlMatch rest

/-- `/External:\s(.*)$/im` attempted at the start of `s`: the banner, one
whitespace character, then the greedy same-line capture (the multiline `$`
always holds where `.*` stops). -/
def externalMatchAt (s : List Char) : Option (List Char) :=
  if isPrefixCI "External:".data s then
    match s.drop 9 with
    | c :: rest => if isJsWS c then some (rest.takeWhile (fun ch => !isLineTerm ch)) else none
    | [] => none
  else none

/-- `/External:\s(.*)$/im.exec(serverOut)`, group 1 of the leftmost match. -/
def externalMatch : List Char → Option (List Char)
  | [] => none
  | s@(_ :: rest) => externalMatchAt s <|> externalMatch rest

/-- `(lldb)\W+run\r?\nsuccess` (case-insensitive) attempted at the start of
`s`; `\W+` is greedy and disjoint from the following literal `run`. -/
def lldbRunSuccessAt (s : List Char) : Bool :=
  if isPrefixCI "(lldb)".data s then
    let r := s.drop 6
    let nw := r.takeWhile (fun c => !isWordChar c)
    if nw.length = 0 then false
    else
      let r2 := r.drop nw.length
      if isPrefixCI "run".data r2 then
        let r3 := r2.drop 3
        let r4 := if r3.head? = some '\r' then r3.drop 1 else r3
        match r4 with
        | '\n' :: r5 => isPrefixCI "success".data r5
        | _ => false
      else false
  else false

def lldbRunSuccessTest : List Char → Bool
  | [] => false
  | s@(_ :: rest) => lldbRunSuccessAt s || lldbRunSuccessTest rest

/-- `getRegexToResolveAppDefer(cliArgs).test(serverOut)`: platform-dependent
app-ready pattern (iOS device, iOS simulator, or the generic
`/launch success|run successful/i`). -/
def appDeferRegexTest (cliArgs : List String) (serverOut : List Char) : Bool :=
  let isIosDevice := cliArgs.contains "ios" && cliArgs.contains "--device"
  let isIosSimulator := cliArgs.contains "ios" && cliArgs.contains "emulate"
  if isIosDevice then
    containsCI "created bundle at path".data serverOut || lldbRunSuccessTest serverOut
  else if isIosSimulator then containsCI "build succeeded".data serverOut
  else containsCI "launch success".data serverOut || containsCI "run successful".data serverOut

/-- The serverUrls list resolved into `appDeferred`:
`[localServerMatchResult[2]]` plus any `External:` addresses
(`externalUrls[1].split(", ").map(x => x.trim())`). -/
def serverUrlsOf (m : Option (List Char)) (serverOut : List Char) : List String :=
  let base := [String.mk (m.getD [])]
  match externalMatch serverOut with
  | some g => base ++ (splitCommaSpace g).map (fun x => String.mk (jsTrim x))
  | none => base

/-- The trigger text for the multiple-network-interface failure. -/
def multiNetworkNeedle : String := "Multiple network interfaces detected"

/-- The fixed part of the multiple-network-interface error (template literal
of `serverOutputHandler`, with `os.EOL` taken as `"\n"`, the POSIX value). -/
def multiNetworkBaseMessage : String :=
  "Your machine has multiple network addresses. Please specify which one your device or emulator will use to communicate with the dev server by adding a \"devServerAddress\": \"ADDRESS\" property to .vscode/launch.json.\nTo get the list of addresses run \"ionic cordova run PLATFORM --livereload\" (where PLATFORM is platform name to run) and wait until prompt with this list is appeared."

def takeDigits : List Char → List Char × List Char
  | [] => ([], [])
  | c :: rest =>
    if c.isDigit then
      let (a, b) := takeDigits rest
      (c :: a, b)
    else ([], c :: rest)

/-- All matches of `addressRegex = /(\d+\) .*)/gm` collected by the repeated
`exec` loop: a maximal digit run, `") "`, then the rest of the line; the scan
resumes after each match. -/
def scanAddressesGo : Nat → List Char → List (List Char)
  | 0, _ => []
  | _ + 1, [] => []
  | fuel + 1, c :: rest =>
    if c.isDigit then
      let (ds, r) := takeDigits (c :: rest)
      match r with
      | ')' :: ' ' :: r2 =>
        let tail := r2.takeWhile (fun ch => !isLineTerm ch)
        (ds ++ ')' :: ' ' :: tail) :: scanAddressesGo fuel (r2.drop tail.length)
      | _ => scanAddressesGo fuel rest
    else scanAddressesGo fuel rest

def scanAddresses (s : List Char) : List (List Char) := scanAddressesGo s.length s

/-- The full multiple-network-interface error message: the base message, and,
when candidate address lines were found, `[" Available addresses:"]`
concatenated with them and joined with `os.EOL + " "`. -/
def multiNetworkErrorMessage (serverOut : List Char) : String :=
  let addresses := scanAddresses serverOut
  if addresses = [] then multiNetworkBaseMessage
  else multiNetworkBaseMessage ++
    String.mk (joinSep "\n ".data (" Available addresses:".data :: addresses))

/-- `getServerErrorMessage(channel)`: `null` under the Ionic-4
`utils-network error while checking` allow-list, else the first
`/error:.*/i` match wrapped in the live-reload error banner. -/
def errorRegexMatch : List Char → Option (List Char)
  | [] => none
  | s@(_ :: rest) =>
    (if isPrefixCI "error:".data s then
       some (s.take 6 ++ (s.drop 6).takeWhile (fun c => !isLineTerm c))
     else none) <|> errorRegexMatch rest

def getServerErrorMessage (isIonic4 : Bool) (channel : List Char) : Option String :=
  if isIonic4 ∧ containsStr "utils-network error while checking".data channel then none
  else
    match errorRegexMatch channel with
    | some m => some ("Error in the Ionic live reload server:" ++ "\n" ++ String.mk m)
    | none => none

/-- The deferred operations `serverOutputHandler` performs, in source order. -/
inductive DevEvent where
  | serverResolve : DevEvent
  | appResolve : List String → DevEvent
  | serverReject : String → DevEvent
  | appReject : String → DevEvent
deriving DecidableEq, Repr

/-- The mutable state `serverOutputHandler` closes over: the accumulated
stdout and the two milestone flags. -/
structure DevServerState where
  serverOut : List Char
  serverReady : Bool
  appReady : Bool
deriving DecidableEq, Repr

def initDevServerState : DevServerState := ⟨[], false, false⟩

/-- The configuration `startIonicDevServer` fixes before attaching the
handler: the CLI arguments (for `isServe` and the app-ready pattern) and the
Ionic CLI major-version test. -/
structure DevServerConfig where
  cliArgs : List String
  isIonic4 : Bool

/-- `isServe = cliArgs[0] === "serve"`. -/
def isServeConfig (cfg : DevServerConfig) : Bool := cfg.cliArgs.head? = some "serve"

/-- One invocation of `serverOutputHandler` on a stdout chunk: append the
chunk, resolve `serverDeferred` on the first URL announcement, then (only with
`serverReady` set) resolve `appDeferred` once the app-ready condition holds,
then reject `serverDeferred` on the multiple-network-interface prompt, then
reject `appDeferred` on a detected error line.  Returns the updated state and
the deferred operations of this invocation, in that order. -/
def serverOutputHandler (cfg : DevServerConfig) (st : DevServerState) (data : String) :
    DevServerState × List DevEvent :=
  let out := st.serverOut ++ data.data
  let m := serverUrlMatch out
  let sr := st.serverReady || m.isSome
  let ev1 : List DevEvent :=
    if !st.serverReady && m.isSome then [DevEvent.serverResolve] else []
  let appHit := sr && !st.appReady && (isServeConfig cfg || appDeferRegexTest cfg.cliArgs out)
  let ar := st.appReady || appHit
  let ev2 : List DevEvent :=
    if appHit then [DevEvent.appResolve (serverUrlsOf m out)] else []
  let ev3 : List DevEvent :=
    if containsStr multiNetworkNeedle.data out then
      [DevEvent.serverReject (multiNetworkErrorMessage out)]
    else []
  let ev4 : List DevEvent :=
    match getServerErrorMessage cfg.isIonic4 out with
    | some msg => [DevEvent.appReject msg]
    | none => []
  (⟨out, sr, ar⟩, ev1 ++ ev2 ++ ev3 ++ ev4)

/-- Fold of `serverOutputHandler` over a stdout chunk sequence, concatenating
the event traces. -/
def serverOutputTrace (cfg : DevServerConfig) : DevServerState → List String →
    DevServerState × List DevEvent
  | st, [] => (st, [])
  | st, d :: ds =>
    ((serverOutputTrace cfg (serverOutputHandler cfg st d).1 ds).1,
     (serverOutputHandler cfg st d).2 ++
       (serverOutputTrace cfg (serverOutputHandler cfg st d).1 ds).2)

/-- Scans a trace with a "serverReady already resolved" flag: `true` iff no
`appResolve` occurs before the first `serverResolve`. -/
def resolvesInOrder : Bool → List DevEvent → Bool
  | _, [] => true
  | _, DevEvent.serverResolve :: t => resolvesInOrder true t
  | seen, DevEvent.appResolve _ :: t => seen && resolvesInOrder seen t
  | seen, DevEvent.serverReject _ :: t => resolvesInOrder seen t
  | seen, DevEvent.appReject _ :: t => resolvesInOrder seen t

/-- The flag value after scanning a trace. -/
def seenServerResolve : Bool → List DevEvent → Bool
  | b, [] => b
  | _, DevEvent.serverResolve :: t => seenServerResolve true t
  | b, _ :: t => seenServerResolve b t

/-! ## ANSI escape stripping (`ansiRegex`, applied to each dev-server URL) -/

/-- The ESC and CSI characters of `ansiRegex`'s leading class
`[\u001b\u009b]`. -/
def isAnsiStart (c : Char) : Bool := c = Char.ofNat 27 || c = Char.ofNat 155

/-- The intermediate class `[[()#;?]`. -/
def isAnsiBracket (c : Char) : Bool :=
  c = '[' || c = '(' || c = ')' || c = '#' || c = ';' || c = '?'

/-- The final class `[0-9A-ORZcf-nqry=><]`. -/
def isAnsiFinal (c : Char) : Bool :=
  c.isDigit || ('A' ≤ c && c ≤ 'O') || c = 'R' || c = 'Z' || c = 'c' ||
    ('f' ≤ c && c ≤ 'n') || c = 'q' || c = 'r' || c = 'y' ||
    c = '=' || c = '>' || c = '<'

def digitRunLen (s : List Char) : Nat := (s.takeWhile Char.isDigit).length

/-- Greedy choice over a digit count `j = hi, hi-1, …, 0` (the JS backtracking
order for `[0-9]{lo,hi}`). -/
def tryDigitCounts (f : Nat → Option Nat) : Nat → Option Nat
  | 0 => f 0
  | j + 1 => f (j + 1) <|> tryDigitCounts f j

/-- Consumed length of `(?:;[0-9]{0,4})*` followed by the final class
character, matched greedily with backtracking (more repetitions first, longer
digit runs first) against a prefix of `s`.  The fuel is an upper bound on the
repetition count; every repetition consumes at least the semicolon, so
`s.length` suffices. -/
def matchSemiReps : Nat → List Char → Option Nat
  | 0, s =>
    match s with
    | c :: _ => if isAnsiFinal c then some 1 else none
    | [] => none
  | fuel + 1, s =>
    (match s with
     | ';' :: rest =>
       tryDigitCounts
         (fun j =>
           if j ≤ digitRunLen rest then
             (matchSemiReps fuel (rest.drop j)).map (fun n => 1 + j + n)
           else none)
         (min 4 (digitRunLen rest))
     | _ => none) <|>
    (match s with
     | c :: _ => if isAnsiFinal c then some 1 else none
     | [] => none)

/-- Consumed length of `(?:[0-9]{1,4}(?:;[0-9]{0,4})*)?[0-9A-ORZcf-nqry=><]`
at the start of `s`: the optional digit group is tried greedily (present
before absent, longer leading run first), then the final class character. -/
def matchDigitsFinal (s : List Char) : Option Nat :=
  tryDigitCounts
    (fun k =>
      if 1 ≤ k ∧ k ≤ digitRunLen s then
        (matchSemiReps s.length (s.drop k)).map (fun n => k + n)
      else none)
    (min 4 (digitRunLen s)) <|>
  (match s with
   | c :: _ => if isAnsiFinal c then some 1 else none
   | [] => none)

/-- Length of the `ansiRegex` match anchored at the start of `s`, if any:
`[\u001b\u009b]`, the greedy run of `[[()#;?]` (disjoint from everything that
follows, so no backtracking), then the digit part and final character. -/
def matchAnsiAt (s : List Char) : Option Nat :=
  match s with
  | c :: rest =>
    if isAnsiStart c then
      let brs := rest.takeWhile isAnsiBracket
      (matchDigitsFinal (rest.drop brs.length)).map (fun n => 1 + brs.length + n)
    else none
  | [] => none

/-- `url.replace(ansiRegex, "")`: delete every match, scanning left to right
and resuming after each deleted match.  Every match consumes at least two
characters, so `s.length` steps of fuel always suffice (with fuel exhausted
the remainder is returned unchanged, a case that is never reached). -/
def stripAnsiGo : Nat → List Char → List Char
  | 0, s => s
  | _ + 1, [] => []
  | fuel + 1, c :: rest =>
    match matchAnsiAt (c :: rest) with
    | some n => stripAnsiGo fuel ((c :: rest).drop n)
    | none => c :: stripAnsiGo fuel rest

def stripAnsi (s : String) : String := String.mk (stripAnsiGo s.data.length s.data)

/-! ## `runAdbCommand`: scoped `PATH` mutation

The source saves `process.env["PATH"]`, appends
`path.delimiter + path.join(process.env["ANDROID_HOME"], "platform-tools")`
when `ANDROID_HOME` is truthy, runs `adb` through `execCommand`, and in a
`finally` assigns the saved value back.  `process.env` is modelled as a
partial map; per Node semantics an assigned value is coerced to a string, so
assigning a saved `undefined` stores the literal string `"undefined"`. -/

def EnvMap := String → Option String

/-- Node's string coercion for values assigned to (or concatenated with)
`process.env` entries: `undefined` becomes `"undefined"`. -/
def jsEnvString : Option String → String
  | some s => s
  | none => "undefined"

/-- JS truthiness of an environment entry (absent and empty are falsy). -/
def envTruthy : Option String → Bool
  | some s => s ≠ ""
  | none => false

/-- `path.join(a, b)` for the plain directory values this code passes
(no `..`, at most a trailing separator). -/
def joinPath (a b : String) : String :=
  if a.data.getLast? = some '/' then a ++ b else a ++ "/" ++ b

/-- The environment while `execCommand("adb", …)` runs: `PATH` extended with
`path.delimiter` (`":"` on a POSIX host) and the platform-tools directory when
`ANDROID_HOME` is truthy, everything else untouched. -/
def runAdbEnvDuring (env : EnvMap) : EnvMap := fun v =>
  if v = "PATH" ∧ envTruthy (env "ANDROID_HOME") then
    some (jsEnvString (env "PATH") ++ ":" ++
      joinPath (jsEnvString (env "ANDROID_HOME")) "platform-tools")
  else env v

/-- The environment after `runAdbCommand`'s `finally` handler:
`process.env["PATH"] = originalPath` (string-coerced), regardless of whether
`execCommand` resolved or rejected. -/
def runAdbEnvAfter (env : EnvMap) : EnvMap := fun v =>
  if v = "PATH" then some (jsEnvString (env "PATH")) else runAdbEnvDuring env v

/-- `runAdbCommand`, environment effect and outcome: the `execCommand` result
is passed through unchanged, and the restore runs on both outcomes. -/
def runAdbCommand (env : EnvMap) (execResult : Except String String) :
    EnvMap × EnvMap × Except String String :=
  (runAdbEnvDuring env, runAdbEnvAfter env, execResult)

/-! ## `attach`: normalization and platform dispatch -/

/-- The fields of `ICordovaAttachRequestArgs` that `attach`'s normalization
and dispatch read.  Optional fields are `none` when absent on the request. -/
structure AttachArgsModel where
  platform : Option String
  port : Option Int
  target : Option String
  cwd : String
  attachTimeout : Option Int
  timeout : Option Int
deriving DecidableEq, Repr

/-- JS `n || d` for an optional number (`0` and absent are falsy). -/
def jsOrNum (o : Option Int) (d : Int) : Int :=
  match o with
  | some n => if n = 0 then d else n
  | none => d

/-- JS `s || d` for an optional string (`""` and absent are falsy). -/
def jsOrStr (o : Option String) (d : String) : String :=
  match o with
  | some s => if s = "" then d else s
  | none => d

/-- Which endpoint resolver `attach` hands the request to after
normalization. -/
inductive AttachBranch where
  | androidResolver : AttachBranch
  | iosResolver : AttachBranch
  | passthrough : AttachBranch
  | unknownPlatformFailure : AttachBranch
deriving DecidableEq, Repr

/-- The observable outcome of `attach`'s synchronous orchestration: the
normalized args record, the port handed to
`cordovaCdpProxy.setApplicationTargetPort`, and the chosen branch. -/
structure AttachOutcome where
  args : AttachArgsModel
  proxyTargetPort : Int
  branch : AttachBranch
deriving DecidableEq, Repr

/-- `attach`: default `port` to `9222` and `target` to `"emulator"`, replace
`cwd` by the resolved Cordova project root
(`CordovaProjectHelper.getCordovaProjectRoot(attachArgs.cwd)`, passed here as
its value), set `timeout` from `attachTimeout`, configure the CDP proxy with
the defaulted port, and dispatch on the lowercased target and platform; a
target that is neither `"device"` nor `"emulator"` resolves with the args
record itself. -/
def attach (a : AttachArgsModel) (resolvedRoot : String) : AttachOutcome :=
  let port := jsOrNum a.port 9222
  let target := jsOrStr a.target "emulator"
  let normalized : AttachArgsModel :=
    { a with port := some port, target := some target, cwd := resolvedRoot,
             timeout := a.attachTimeout }
  let platformL := a.platform.map jsLower
  let targetL := jsLower target
  let branch :=
    if targetL = "device" ∨ targetL = "emulator" then
      if platformL = some "android" then AttachBranch.androidResolver
      else if platformL = some "ios" then AttachBranch.iosResolver
      else AttachBranch.unknownPlatformFailure
    else AttachBranch.passthrough
  ⟨normalized, port, branch⟩

/-- The CLI argument list of a live-reload Android device launch (the list
`launchAndroid` builds for such a request) as a dev-server configuration. -/
def devAndroidLiveReloadConfig : DevServerConfig :=
  ⟨["run", "android", "--device", "--verbose", "--livereload"], false⟩

/-- An environment with `ANDROID_HOME` set and `PATH` unset. -/
def androidHomeOnlyEnv : EnvMap :=
  fun v => if v = "ANDROID_HOME" then some "/sdk" else none

/-! ## Helper lemmas -/

theorem resolvesInOrder_true : ∀ l : List DevEvent, resolvesInOrder true l = true := by
  intro l
  induction l with
  | nil => rfl
  | cons e t ih => cases e <;> simp [resolvesInOrder, ih]

theorem seenServerResolve_true : ∀ l : List DevEvent, seenServerResolve true l = true := by
  intro l
  induction l with
  | nil => rfl
  | cons e t ih => cases e <;> simp [seenServerResolve, ih]

theorem resolvesInOrder_append (l₁ l₂ : List DevEvent) :
    ∀ b : Bool, resolvesInOrder b (l₁ ++ l₂) =
      (resolvesInOrder b l₁ && resolvesInOrder (seenServerResolve b l₁) l₂) := by
  induction l₁ with
  | nil => intro b; simp [resolvesInOrder, seenServerResolve]
  | cons e t ih =>
    intro b
    cases e <;> simp [resolvesInOrder, seenServerResolve, ih, Bool.and_assoc]

theorem serverOutputHandler_order (cfg : DevServerConfig) (st : DevServerState)
    (data : String) (seen : Bool) (h : st.serverReady = true → seen = true) :
    resolvesInOrder seen (serverOutputHandler cfg st data).2 = true ∧
    ((serverOutputHandler cfg st data).1.serverReady = true →
      seenServerResolve seen (serverOutputHandler cfg st data).2 = true) := by
  by_cases hsr : st.serverReady = true
  · have hseen := h hsr
    subst hseen
    exact ⟨resolvesInOrder_true _, fun _ => seenServerResolve_true _⟩
  · have hsr' : st.serverReady = false := by
      cases hst : st.serverReady
      · rfl
      · exact absurd hst hsr
    by_cases hm : (serverUrlMatch (st.serverOut ++ data.data)).isSome = true
    · constructor
      · simp only [serverOutputHandler, hsr', hm]
        simp only [Bool.not_false, Bool.true_and, if_true, List.singleton_append,
          resolvesInOrder, resolvesInOrder_true]
      · intro _
        simp only [serverOutputHandler, hsr', hm]
        simp only [Bool.not_false, Bool.true_and, if_true, List.singleton_append,
          seenServerResolve, seenServerResolve_true]
    · have hm' : (serverUrlMatch (st.serverOut ++ data.data)).isSome = false := by
        cases hval : (serverUrlMatch (st.serverOut ++ data.data)).isSome
        · rfl
        · exact absurd hval hm
      have hrejects : ∀ seen' : Bool,
          resolvesInOrder seen' ((if containsStr multiNetworkNeedle.data (st.serverOut ++ data.data) then
              [DevEvent.serverReject (multiNetworkErrorMessage (st.serverOut ++ data.data))]
            else []) ++
            (match getServerErrorMessage cfg.isIonic4 (st.serverOut ++ data.data) with
             | some msg => [DevEvent.appReject msg]
             | none => [])) = true := by
        intro seen'
        split <;> split <;> simp [resolvesInOrder]
      constructor
      · simp only [serverOutputHandler, hsr', hm']
        simp [resolvesInOrder, hrejects seen]
      · intro hnew
        exfalso
        simp only [serverOutputHandler, hsr', hm'] at hnew
        simp at hnew

theorem serverOutputTrace_order (cfg : DevServerConfig) :
    ∀ (cs : List String) (st : DevServerState) (seen : Bool),
      (st.serverReady = true → seen = true) →
      resolvesInOrder seen (serverOutputTrace cfg st cs).2 = true := by
  intro cs
  induction cs with
  | nil => intro st seen _; simp [serverOutputTrace, resolvesInOrder]
  | cons d ds ih =>
    intro st seen h
    obtain ⟨h1, h2⟩ := serverOutputHandler_order cfg st d seen h
    simp only [serverOutputTrace]
    rw [resolvesInOrder_append, h1, Bool.true_and]
    exact ih _ _ (fun hsr => h2 hsr)

theorem isInfix_append_left {l m : List Char} (t : List Char) (h : l <:+: m) :
    l <:+: t ++ m := by
  obtain ⟨s, u, hsu⟩ := h
  exact ⟨t ++ s, u, by rw [← hsu]; simp⟩

theorem isInfix_append_right {l m : List Char} (t : List Char) (h : l <:+: m) :
    l <:+: m ++ t := by
  obtain ⟨s, u, hsu⟩ := h
  exact ⟨s, u ++ t, by rw [← hsu]; simp⟩

theorem mem_infix_joinSep (sep x : List Char) :
    ∀ l : List (List Char), x ∈ l → x <:+: joinSep sep l := by
  intro l
  induction l with
  | nil => intro h; cases h
  | cons y t ih =>
    intro hx
    cases t with
    | nil =>
      have hxy : x = y := by simpa using hx
      subst hxy
      exact ⟨[], [], by simp [joinSep]⟩
    | cons z t2 =>
      rcases List.mem_cons.mp hx with hxy | hmem
      · subst hxy
        exact ⟨[], sep ++ joinSep sep (z :: t2), by simp [joinSep]⟩
      · obtain ⟨s, u, hsu⟩ := ih hmem
        refine ⟨y ++ sep ++ s, u, ?_⟩
        simp only [joinSep, List.append_assoc]
        rw [← List.append_assoc s x u, hsu]

theorem retryAsync_attempts_le {α : Type} (probe : Nat → Except String α)
    (accept : α → Bool) (msg : String) :
    ∀ (n i : Nat), (retryAsync probe accept msg n i).2 ≤ n := by
  intro n
  induction n with
  | zero => intro i; simp [retryAsync]
  | succ m ih =>
    intro i
    unfold retryAsync
    cases hp : probe i with
    | ok r =>
      by_cases ha : accept r = true
      · simp [ha]
      · have hb : accept r = false := by
          cases hval : accept r
          · rfl
          · exact absurd hval ha
        simp only [hb, Bool.false_eq_true, if_false]
        have := ih (i + 1)
        omega
    | error e =>
      simp only
      have := ih (i + 1)
      omega

theorem stripAnsiGo_of_clean :
    ∀ (fuel : Nat) (t : List Char), (∀ c ∈ t, isAnsiStart c = false) →
      stripAnsiGo fuel t = t := by
  intro fuel
  induction fuel with
  | zero => intro t _; rfl
  | succ f ih =>
    intro t h
    cases t with
    | nil => rfl
    | cons c rest =>
      have hc : isAnsiStart c = false := h c (by simp)
      have hm : matchAnsiAt (c :: rest) = none := by simp [matchAnsiAt, hc]
      simp only [stripAnsiGo, hm]
      rw [ih rest (fun x hx => h x (List.mem_cons_of_mem _ hx))]

theorem stripAnsi_of_clean (s : String) (h : ∀ c ∈ s.data, isAnsiStart c = false) :
    stripAnsi s = s := by
  unfold stripAnsi
  rw [stripAnsiGo_of_clean _ _ h]

/-! ## Claim theorems -/

set_option maxRecDepth 8000

/-- C1 (amended).  In `startIonicDevServer`'s output handler the appReady
milestone is only evaluated after serverReady: over every stdout chunk
sequence, no `appDeferred.resolve` ever precedes the first
`serverDeferred.resolve`.  `serverDeferred` itself is resolved with no payload
(`resolve(void 0)`); the URL is delivered with the appReady resolution, whose
first entry is the second capture of the first `SERVER_URL_RE` match in the
accumulated output.  For the spec's chunk sequence
`"Running dev server: http://localhost:8100"` then `"launch success"` the
detector resolves serverReady and afterwards resolves appReady carrying
`["http://localhost:8100"]`, in that order and never the reverse. -/
theorem C1_server_ready_precedes_app_ready :
    (∀ (cfg : DevServerConfig) (chunks : List String),
      resolvesInOrder false (serverOutputTrace cfg initDevServerState chunks).2 = true) ∧
    (serverOutputTrace devAndroidLiveReloadConfig initDevServerState
        ["Running dev server: http://localhost:8100\n", "launch success"]).2 =
      [DevEvent.serverResolve, DevEvent.appResolve ["http://localhost:8100"]] := by
  constructor
  · intro cfg chunks
    exact serverOutputTrace_order cfg chunks initDevServerState false
      (by intro h; simp [initDevServerState] at h)
  · decide

/-- C1, counterexample to the claim as stated: a chunk sequence in which a
line matching `"Running dev server: http://localhost:8100"` appears and a
later chunk contains `"launch success"`, yet the handler resolves serverReady
already on an earlier `Local:` URL announcement and the URL it captures is
`"http://evil.example"`, never `"http://localhost:8100"`. -/
theorem C1_counterexample :
    (serverOutputTrace devAndroidLiveReloadConfig initDevServerState
        ["Local: http://evil.example x\n",
         "Running dev server: http://localhost:8100\n", "launch success"]).2 =
      [DevEvent.serverResolve, DevEvent.appResolve ["http://evil.example"]] ∧
    containsStr "Running dev server: http://localhost:8100".data
      "Running dev server: http://localhost:8100\n".data = true ∧
    containsStr "launch success".data "launch success".data = true ∧
    DevEvent.appResolve ["http://localhost:8100"] ∉
      (serverOutputTrace devAndroidLiveReloadConfig initDevServerState
        ["Local: http://evil.example x\n",
         "Running dev server: http://localhost:8100\n", "launch success"]).2 := by
  exact ⟨by decide, by decide, by decide, by decide⟩

/-- C7.  Whenever the accumulated stdout contains
`"Multiple network interfaces detected"`, the handler fails `serverDeferred`
with the multiple-network-interface error message; that message contains every
candidate address line found by `/(\d+\) .*)/gm` verbatim, and instructs the
user to set the `devServerAddress` configuration property. -/
theorem C7_multi_interface_failure (cfg : DevServerConfig) (st : DevServerState)
    (data : String)
    (h : containsStr multiNetworkNeedle.data (st.serverOut ++ data.data) = true) :
    DevEvent.serverReject (multiNetworkErrorMessage (st.serverOut ++ data.data)) ∈
        (serverOutputHandler cfg st data).2 ∧
    (∀ a ∈ scanAddresses (st.serverOut ++ data.data),
      a <:+: (multiNetworkErrorMessage (st.serverOut ++ data.data)).data) ∧
    "devServerAddress".data <:+: (multiNetworkErrorMessage (st.serverOut ++ data.data)).data := by
  refine ⟨?_, ?_, ?_⟩
  · simp only [serverOutputHandler, h, if_true]
    simp [List.mem_append]
  · intro a ha
    have hne : scanAddresses (st.serverOut ++ data.data) ≠ [] := by
      intro hnil
      rw [hnil] at ha
      cases ha
    unfold multiNetworkErrorMessage
    simp only [hne, if_false, String.data_append]
    apply isInfix_append_left
    exact mem_infix_joinSep _ _ _ (List.mem_cons_of_mem _ ha)
  · have hbase : "devServerAddress".data <:+: multiNetworkBaseMessage.data := by decide
    unfold multiNetworkErrorMessage
    by_cases hadr : scanAddresses (st.serverOut ++ data.data) = []
    · simp only [hadr, if_true]
      exact hbase
    · simp only [hadr, if_false, String.data_append]
      exact isInfix_append_right _ hbase

/-- C7, witness: the multiple-network-interface prompt with two address lines
fails serverReady with a message listing both addresses. -/
theorem C7_witness :
    containsStr multiNetworkNeedle.data (initDevServerState.serverOut ++
      "Multiple network interfaces detected\n1) 10.0.0.5\n2) 192.168.0.7\n".data) = true ∧
    (DevEvent.serverReject (multiNetworkErrorMessage (initDevServerState.serverOut ++
        "Multiple network interfaces detected\n1) 10.0.0.5\n2) 192.168.0.7\n".data)) ∈
      (serverOutputHandler ⟨["serve"], false⟩ initDevServerState
        "Multiple network interfaces detected\n1) 10.0.0.5\n2) 192.168.0.7\n").2 ∧
    (∀ a ∈ scanAddresses (initDevServerState.serverOut ++
        "Multiple network interfaces detected\n1) 10.0.0.5\n2) 192.168.0.7\n".data),
      a <:+: (multiNetworkErrorMessage (initDevServerState.serverOut ++
        "Multiple network interfaces detected\n1) 10.0.0.5\n2) 192.168.0.7\n".data)).data) ∧
    "devServerAddress".data <:+: (multiNetworkErrorMessage (initDevServerState.serverOut ++
      "Multiple network interfaces detected\n1) 10.0.0.5\n2) 192.168.0.7\n".data)).data) := by
  refine ⟨by decide, ?_⟩
  exact C7_multi_interface_failure ⟨["serve"], false⟩ initDevServerState
    "Multiple network interfaces detected\n1) 10.0.0.5\n2) 192.168.0.7\n" (by decide)

/-- C2.  A launch request with target `"device"`, `ionicLiveReload` set, an
Ionic-Angular project type, and no run arguments supplied on the request nor
discovered from the project makes `launchAndroid` build exactly
`["run", "android", "--device", "--verbose", "--livereload"]`, and the
presence of `--livereload` routes the launch through `startIonicDevServer`. -/
theorem C2_livereload_android_args (launchArgs : LaunchArgsModel)
    (projRunArguments : Option (List String))
    (htarget : launchArgs.target = "device")
    (hlr : launchArgs.ionicLiveReload = true)
    (hreq : optHasElems launchArgs.runArguments = false)
    (hproj : optHasElems projRunArguments = false) :
    launchAndroidArgs launchArgs true projRunArguments =
      ["run", "android", "--device", "--verbose", "--livereload"] ∧
    launchAndroidUsesDevServer (launchAndroidArgs launchArgs true projRunArguments) = true := by
  obtain ⟨t, ra, lr⟩ := launchArgs
  simp only at htarget hlr hreq hproj
  subst htarget
  subst hlr
  cases ra with
  | none =>
    cases projRunArguments with
    | none => exact ⟨by decide, by decide⟩
    | some l =>
      have hl : l = [] := by
        simp [optHasElems] at hproj
        exact hproj
      subst hl
      exact ⟨by decide, by decide⟩
  | some l0 =>
    have hl0 : l0 = [] := by
      simp [optHasElems] at hreq
      exact hreq
    subst hl0
    cases projRunArguments with
    | none => exact ⟨by decide, by decide⟩
    | some l =>
      have hl : l = [] := by
        simp [optHasElems] at hproj
        exact hproj
      subst hl
      exact ⟨by decide, by decide⟩

/-- C2, witness at a concrete live-reload Android device request. -/
theorem C2_witness :
    launchAndroidArgs ⟨"device", none, true⟩ true none =
      ["run", "android", "--device", "--verbose", "--livereload"] ∧
    launchAndroidUsesDevServer (launchAndroidArgs ⟨"device", none, true⟩ true none) = true :=
  C2_livereload_android_args ⟨"device", none, true⟩ none rfl rfl rfl rfl

/-- C3.  In the `/proc/net/unix` scan of `findAbstractNameFunction` (with the
standard header, whose Flags/St/Path columns sit at indices 3/5/7): a row
whose Flags field differs from `"00010000"` is rejected regardless of its
path, as is a row whose St field is not `"01"`, whose path does not begin with
`"@"`, or whose path does not contain `"_devtools_remote"`; a row with Flags
`"00010000"`, St `"01"` and path `"@webview_devtools_remote_<pid>"` (or
`"@<packageName>_devtools_remote"`) is selected and returned with the leading
`"@"` removed.  On a concrete table a `00000000`-flags row is skipped in
favour of the accepting-connections row. -/
theorem C3_socket_row_filtering (pid pkg : String) :
    ((jsIndexOf (socketFields "Num       RefCount Protocol Flags    Type St Inode Path") "Flags",
      jsIndexOf (socketFields "Num       RefCount Protocol Flags    Type St Inode Path") "St",
      jsIndexOf (socketFields "Num       RefCount Protocol Flags    Type St Inode Path") "Path") =
        ((3 : Int), (5 : Int), (7 : Int))) ∧
    (∀ line : String, getFieldAt (socketFields line) 3 ≠ some "00010000" →
      socketRowMatch 3 5 7 pid pkg line = none) ∧
    (∀ line : String, getFieldAt (socketFields line) 5 ≠ some "01" →
      socketRowMatch 3 5 7 pid pkg line = none) ∧
    (∀ (line : String) (pf : String), getFieldAt (socketFields line) 7 = some pf →
      pf.data.head? ≠ some '@' → socketRowMatch 3 5 7 pid pkg line = none) ∧
    (∀ (line : String) (pf : String), getFieldAt (socketFields line) 7 = some pf →
      ¬("_devtools_remote".data <:+: pf.data) → socketRowMatch 3 5 7 pid pkg line = none) ∧
    (∀ line : String, ¬((socketFields line).length < 8) →
      getFieldAt (socketFields line) 3 = some "00010000" →
      getFieldAt (socketFields line) 5 = some "01" →
      getFieldAt (socketFields line) 7 = some ("@webview_devtools_remote_" ++ pid) →
      socketRowMatch 3 5 7 pid pkg line = some ("webview_devtools_remote_" ++ pid)) ∧
    (∀ line : String, ¬((socketFields line).length < 8) →
      getFieldAt (socketFields line) 3 = some "00010000" →
      getFieldAt (socketFields line) 5 = some "01" →
      getFieldAt (socketFields line) 7 = some ("@" ++ pkg ++ "_devtools_remote") →
      socketRowMatch 3 5 7 pid pkg line = some (pkg ++ "_devtools_remote")) ∧
    findAbstractNameFunction "1234" "com.example"
        "Num       RefCount Protocol Flags    Type St Inode Path\n0000000000000000: 00000002 00000000 00000000 0002 01 20893 @webview_devtools_remote_1234\n0000000000000000: 00000002 00000000 00010000 0002 01 20894 @webview_devtools_remote_1234\n" =
      some "webview_devtools_remote_1234" := by
  refine ⟨by decide, ?_, ?_, ?_, ?_, ?_, ?_, by decide⟩
  · intro line hflags
    unfold socketRowMatch
    by_cases hlen : (socketFields line).length < 8
    · simp [hlen]
    · simp [hlen, hflags]
  · intro line hst
    unfold socketRowMatch
    by_cases hlen : (socketFields line).length < 8
    · simp [hlen]
    · by_cases hfl : getFieldAt (socketFields line) 3 = some "00010000"
      · simp [hlen, hfl, hst]
      · simp [hlen, hfl]
  · intro line pf hpf hhead
    unfold socketRowMatch
    by_cases hlen : (socketFields line).length < 8
    · simp [hlen]
    · by_cases hfl : getFieldAt (socketFields line) 3 = some "00010000"
      · by_cases hst : getFieldAt (socketFields line) 5 = some "01"
        · simp [hlen, hfl, hst, hpf, hhead]
        · simp [hlen, hfl, hst]
      · simp [hlen, hfl]
  · intro line pf hpf hinf
    unfold socketRowMatch
    by_cases hlen : (socketFields line).length < 8
    · simp [hlen]
    · by_cases hfl : getFieldAt (socketFields line) 3 = some "00010000"
      · by_cases hst : getFieldAt (socketFields line) 5 = some "01"
        · by_cases hhead : pf.data.head? = some '@'
          · simp [hlen, hfl, hst, hpf, hhead, hinf]
          · simp [hlen, hfl, hst, hpf, hhead]
        · simp [hlen, hfl, hst]
      · simp [hlen, hfl]
  · intro line hlen hfl hst hpf
    have hhead : ("@webview_devtools_remote_" ++ pid).data.head? = some '@' := rfl
    have hinf : "_devtools_remote".data <:+: ("@webview_devtools_remote_" ++ pid).data :=
      ⟨"@webview".data, '_' :: pid.data, rfl⟩
    simp [socketRowMatch, hlen, hfl, hst, hpf, hhead, hinf]
    exact ⟨hinf, rfl⟩
  · intro line hlen hfl hst hpf
    have hhead : ("@" ++ pkg ++ "_devtools_remote").data.head? = some '@' := rfl
    have hinf : "_devtools_remote".data <:+: ("@" ++ pkg ++ "_devtools_remote").data :=
      ⟨'@' :: pkg.data, [], by simp [String.data_append]⟩
    simp [socketRowMatch, hlen, hfl, hst, hpf, hhead, hinf]
    exact ⟨hinf, rfl⟩

/-- C3, witness: a concrete accepting-connections row with the pid-qualified
path is selected and returned without the leading `"@"`. -/
theorem C3_witness :
    ¬((socketFields "0000000000000000: 00000002 00000000 00010000 0002 01 20894 @webview_devtools_remote_1234").length < 8) ∧
    getFieldAt (socketFields "0000000000000000: 00000002 00000000 00010000 0002 01 20894 @webview_devtools_remote_1234") 3 = some "00010000" ∧
    socketRowMatch 3 5 7 "1234" "com.example"
        "0000000000000000: 00000002 00000000 00010000 0002 01 20894 @webview_devtools_remote_1234" =
      some ("webview_devtools_remote_" ++ "1234") := by
  refine ⟨by decide, by decide, ?_⟩
  exact (C3_socket_row_filtering "1234" "com.example").2.2.2.2.2.1
    "0000000000000000: 00000002 00000000 00010000 0002 01 20894 @webview_devtools_remote_1234"
    (by decide) (by decide) (by decide) (by decide)

/-- C4, counterexample to the claim as stated: two device lines survive the
`"device"` filter, yet the attach attempt does not fail — `attachAndroid`
takes the first survivor (`...filter(targetFilter).map(...)[0]`) instead of
requiring exactly one. -/
theorem C4_counterexample :
    (adbSurvivors "device" "List of devices attached\nserial1\tdevice\nserial2\tdevice\n").length = 2 ∧
    attachAndroidPickDevice "device" "List of devices attached\nserial1\tdevice\nserial2\tdevice\n" =
      .ok "serial1" := by
  exact ⟨by decide, by rfl⟩

/-- C4 (amended).  After filtering the `adb devices` lines by target kind
(device-line-not-emulator for `"device"`, emulator-and-device for
`"emulator"`, pattern containment for a concrete serial), `attachAndroid`
uses the FIRST surviving line (with `"\tdevice"` and `"\r"` removed); the
attach attempt fails with `"Unable to find target <target>"` exactly when no
line survives or the first survivor cleans to the empty string — multiple
survivors do not cause a failure. -/
theorem C4_first_survivor_or_error (target devicesOutput : String) :
    (adbSurvivors target devicesOutput = [] →
      attachAndroidPickDevice target devicesOutput =
        .error ("Unable to find target " ++ target)) ∧
    (∀ r : String,
      ((adbSurvivors target devicesOutput).map cleanDeviceLine).head? = some r → r ≠ "" →
      attachAndroidPickDevice target devicesOutput = .ok r) ∧
    (((adbSurvivors target devicesOutput).map cleanDeviceLine).head? = some "" →
      attachAndroidPickDevice target devicesOutput =
        .error ("Unable to find target " ++ target)) ∧
    (targetFilter "device" "emulator-5554\tdevice" = false ∧
     targetFilter "emulator" "emulator-5554\tdevice" = true ∧
     targetFilter "device" "serial1\tdevice" = true) := by
  refine ⟨?_, ?_, ?_, by decide⟩
  · intro h
    unfold attachAndroidPickDevice
    rw [h]
    rfl
  · intro r h hne
    unfold attachAndroidPickDevice
    rw [h]
    simp [hne]
  · intro h
    unfold attachAndroidPickDevice
    rw [h]
    rfl

/-- C4, witness: with no surviving line the attach attempt fails with the
target-not-found error. -/
theorem C4_witness :
    adbSurvivors "device" "List of devices attached\n" = [] ∧
    attachAndroidPickDevice "device" "List of devices attached\n" =
      .error ("Unable to find target " ++ "device") :=
  ⟨by decide, (C4_first_survivor_or_error "device" "List of devices attached\n").1 (by decide)⟩

/-- C5, counterexample to the claim as stated: the target `"iPhone-8"`, a bare
simulator identifier enumerated by `emulate ios --list`, is NOT accepted —
`checkIfTargetIsiOSSimulator` raises the invalid-target error precisely when
the target appears in the parsed simulator list
(`if (result) simulatorTargetIsNotSupported()`). -/
theorem C5_counterexample :
    checkIfTargetIsiOSSimulator "iPhone-8" "Available iOS Simulators:\n\tiPhone-8, 11.4\n" =
      .error iosInvalidTargetMessage ∧
    checkIfTargetIsiOSSimulator "iPhone-8" "Available iOS Simulators:\n\tiPhone-8, 11.4\n" ≠
      .ok () := by
  refine ⟨by rfl, ?_⟩
  intro h
  exact Except.noConfusion h

/-- C5 (amended).  `checkIfTargetIsiOSSimulator` always rejects the
`"emulator"` alias with the invalid-target error; it also rejects any target
that equals a simulator identifier parsed from the `emulate ios --list`
output; only targets outside that list (and other than `"emulator"`) pass the
check.  The parser turns `"Available iOS Simulators:\n\tiPhone-8, 11.4\n"`
into the entries `[none, some "iPhone-8", none]`. -/
theorem C5_ios_target_check (target listOutput : String) :
    (checkIfTargetIsiOSSimulator "emulator" listOutput = .error iosInvalidTargetMessage) ∧
    (target ≠ "emulator" →
      (parsedEmulatorEntries listOutput).contains (some target) = true →
      checkIfTargetIsiOSSimulator target listOutput = .error iosInvalidTargetMessage) ∧
    (target ≠ "emulator" →
      (parsedEmulatorEntries listOutput).contains (some target) = false →
      checkIfTargetIsiOSSimulator target listOutput = .ok ()) ∧
    (parsedEmulatorEntries "Available iOS Simulators:\n\tiPhone-8, 11.4\n" =
      [none, some "iPhone-8", none]) := by
  refine ⟨?_, ?_, ?_, by decide⟩
  · unfold checkIfTargetIsiOSSimulator
    rfl
  · intro hne hmem
    have hmem' : some target ∈ parsedEmulatorEntries listOutput := by simpa using hmem
    unfold checkIfTargetIsiOSSimulator
    simp [hne, hmem']
  · intro hne hmem
    have hmem' : some target ∉ parsedEmulatorEntries listOutput := by simpa using hmem
    unfold checkIfTargetIsiOSSimulator
    simp [hne, hmem']

/-- C5, witness: a target absent from the simulator list passes the check. -/
theorem C5_witness :
    ("iPhone-X" : String) ≠ "emulator" ∧
    (parsedEmulatorEntries "Available iOS Simulators:\n\tiPhone-8, 11.4\n").contains
      (some "iPhone-X") = false ∧
    checkIfTargetIsiOSSimulator "iPhone-X" "Available iOS Simulators:\n\tiPhone-8, 11.4\n" =
      .ok () :=
  ⟨by decide, by decide,
    (C5_ios_target_check "iPhone-X" "Available iOS Simulators:\n\tiPhone-8, 11.4\n").2.2.1
      (by decide) (by decide)⟩

/-- C6.  `findWebViews`: with live reload active the webview list is filtered
by prefix match against the dev-server urls (on the spec's example only
`"http://10.0.0.5:8100/app"` survives), otherwise by containment of the
URL-encoded package path; a probe with no match but exactly one webview in
total falls back to that webview with the logged warning; a probe with no
match and a different total fails with `"Unable to find target app"`; the
whole step runs under the retry helper with at most 5 attempts and a fixed
delay (reason: the retry helper is modelled from the spec). -/
theorem C6_webview_filter_fallback_retry :
    (findWebViewsProbe (some ["http://10.0.0.5:8100"]) "" 9223
        [⟨"http://10.0.0.5:8100/app"⟩, ⟨"http://example.com"⟩] =
      .ok ⟨[⟨"http://10.0.0.5:8100/app"⟩], 9223, false⟩) ∧
    (∀ (ionic : Option (List String)) (pkg : String) (port : Nat) (l : List WebViewEntry),
      (l.filter (webviewFilter ionic pkg)).length = 0 → l.length = 1 →
      findWebViewsProbe ionic pkg port l = .ok ⟨l, port, true⟩) ∧
    (∀ (ionic : Option (List String)) (pkg : String) (port : Nat) (l : List WebViewEntry),
      (l.filter (webviewFilter ionic pkg)).length = 0 → l.length ≠ 1 →
      findWebViewsProbe ionic pkg port l = .error "Unable to find target app") ∧
    (webviewFilter none "my app" ⟨"http://host/my%20app/page"⟩ = true ∧
     webviewFilter none "my app" ⟨"http://host/other"⟩ = false) ∧
    (∀ (ionic : Option (List String)) (pkg : String) (port : Nat)
        (responses : Nat → List WebViewEntry),
      (findWebViews ionic pkg port responses).2 ≤ 5) := by
  refine ⟨by rfl, ?_, ?_, by decide, ?_⟩
  · intro ionic pkg port l hf hl
    unfold findWebViewsProbe
    simp [hf, hl]
  · intro ionic pkg port l hf hl
    unfold findWebViewsProbe
    simp [hf, hl]
  · intro ionic pkg port responses
    exact retryAsync_attempts_le _ _ _ 5 0

/-- C6, witness: a single unmatched webview is used as the fallback. -/
theorem C6_witness :
    (([⟨"about:blank"⟩] : List WebViewEntry).filter (webviewFilter none "x")).length = 0 ∧
    ([⟨"about:blank"⟩] : List WebViewEntry).length = 1 ∧
    findWebViewsProbe none "x" 7 [⟨"about:blank"⟩] =
      .ok ⟨[⟨"about:blank"⟩], 7, true⟩ :=
  ⟨by decide, by decide,
    C6_webview_filter_fallback_retry.2.1 none "x" 7 [⟨"about:blank"⟩] (by decide) (by decide)⟩

/-- C8, counterexample to the claim as stated: stripping is NOT idempotent.
For the input `ESC ESC m A` the first pass removes `ESC m` and leaves
`ESC A`, which a second pass removes entirely. -/
theorem C8_counterexample :
    stripAnsi (stripAnsi (String.mk [Char.ofNat 27, Char.ofNat 27, 'm', 'A'])) ≠
      stripAnsi (String.mk [Char.ofNat 27, Char.ofNat 27, 'm', 'A']) ∧
    stripAnsi (String.mk [Char.ofNat 27, Char.ofNat 27, 'm', 'A']) =
      String.mk [Char.ofNat 27, 'A'] ∧
    stripAnsi (stripAnsi (String.mk [Char.ofNat 27, Char.ofNat 27, 'm', 'A'])) = "" := by
  exact ⟨by decide, by decide, by decide⟩

/-- C8 (amended).  The single global `ansiRegex` replacement is idempotent on
every string whose stripped output contains no residual ESC/CSI character —
in particular it is the identity on strings free of ESC/CSI characters
(every `ansiRegex` match starts with one).  In general a crafted input (see
the counterexample) leaves a new escape sequence after one pass, so
idempotence does not hold unconditionally. -/
theorem C8_strip_idempotent_on_clean_output :
    (∀ s : String, (∀ c ∈ (stripAnsi s).data, isAnsiStart c = false) →
      stripAnsi (stripAnsi s) = stripAnsi s) ∧
    (∀ s : String, (∀ c ∈ s.data, isAnsiStart c = false) → stripAnsi s = s) :=
  ⟨fun s h => stripAnsi_of_clean (stripAnsi s) h, stripAnsi_of_clean⟩

/-- C8, witness: stripping a colour-coded dev-server URL once removes both
escape sequences, and a second pass changes nothing. -/
theorem C8_witness :
    (∀ c ∈ (stripAnsi (String.mk ([Char.ofNat 27, '[', '3', '6', 'm'] ++
        "http://localhost:8100".data ++ [Char.ofNat 27, '[', '3', '9', 'm']))).data,
      isAnsiStart c = false) ∧
    stripAnsi (stripAnsi (String.mk ([Char.ofNat 27, '[', '3', '6', 'm'] ++
        "http://localhost:8100".data ++ [Char.ofNat 27, '[', '3', '9', 'm']))) =
      stripAnsi (String.mk ([Char.ofNat 27, '[', '3', '6', 'm'] ++
        "http://localhost:8100".data ++ [Char.ofNat 27, '[', '3', '9', 'm'])) :=
  ⟨by decide,
    C8_strip_idempotent_on_clean_output.1
      (String.mk ([Char.ofNat 27, '[', '3', '6', 'm'] ++
        "http://localhost:8100".data ++ [Char.ofNat 27, '[', '3', '9', 'm']))
      (by decide)⟩

/-- C9, counterexample to the claim as stated: with `ANDROID_HOME` set and
`PATH` initially unset, the `finally` restore
(`process.env["PATH"] = originalPath`, Node string coercion) leaves `PATH`
bound to the literal string `"undefined"`, not to its original (absent)
value. -/
theorem C9_counterexample :
    (runAdbCommand androidHomeOnlyEnv (.ok "")).2.1 "PATH" = some "undefined" ∧
    androidHomeOnlyEnv "PATH" = none ∧
    (some "undefined" : Option String) ≠ none := by
  exact ⟨by decide, by decide, by decide⟩

/-- C9 (amended).  `runAdbCommand` appends `":" ++ <ANDROID_HOME>/platform-tools`
to `PATH` for the duration of the call exactly when `ANDROID_HOME` is truthy;
after the call — whether `execCommand` resolved or rejected — `PATH` equals
exactly its original value whenever it was initially set (an initially unset
`PATH` instead ends as the literal string `"undefined"` through Node's string
coercion), and no other environment variable is ever modified. -/
theorem C9_adb_path_restoration :
    (∀ (env : EnvMap) (res : Except String String) (v : String), v ≠ "PATH" →
      (runAdbCommand env res).2.1 v = env v) ∧
    (∀ (env : EnvMap) (res : Except String String) (s : String), env "PATH" = some s →
      (runAdbCommand env res).2.1 "PATH" = some s) ∧
    (∀ (env : EnvMap) (res : Except String String),
      envTruthy (env "ANDROID_HOME") = true →
      (runAdbCommand env res).1 "PATH" =
        some (jsEnvString (env "PATH") ++ ":" ++
          joinPath (jsEnvString (env "ANDROID_HOME")) "platform-tools")) ∧
    (∀ (env : EnvMap) (res : Except String String) (v : String),
      envTruthy (env "ANDROID_HOME") = false →
      (runAdbCommand env res).1 v = env v) ∧
    (∀ (env : EnvMap) (res : Except String String), (runAdbCommand env res).2.2 = res) := by
  refine ⟨?_, ?_, ?_, ?_, fun env res => rfl⟩
  · intro env res v hv
    simp [runAdbCommand, runAdbEnvAfter, runAdbEnvDuring, hv]
  · intro env res s hs
    simp [runAdbCommand, runAdbEnvAfter, jsEnvString, hs]
  · intro env res htr
    simp [runAdbCommand, runAdbEnvDuring, htr]
  · intro env res v hfalse
    simp [runAdbCommand, runAdbEnvDuring, hfalse]

/-- C9, witness: with `PATH` and `ANDROID_HOME` both set, `PATH` is restored
exactly after the call. -/
theorem C9_witness :
    ((fun v => if v = "PATH" then some "/usr/bin"
               else if v = "ANDROID_HOME" then some "/sdk" else none) : EnvMap) "PATH" =
      some "/usr/bin" ∧
    (runAdbCommand
        (fun v => if v = "PATH" then some "/usr/bin"
                  else if v = "ANDROID_HOME" then some "/sdk" else none)
        (.error "adb exited with code 1")).2.1 "PATH" = some "/usr/bin" :=
  ⟨by decide,
    C9_adb_path_restoration.2.1
      (fun v => if v = "PATH" then some "/usr/bin"
                else if v = "ANDROID_HOME" then some "/sdk" else none)
      (.error "adb exited with code 1") "/usr/bin" (by decide)⟩

/-- C10.  For an attach request whose lowercased (defaulted) target is neither
`"device"` nor `"emulator"`, `attach` resolves with the args record itself,
changed only by the initial normalization (port defaulted to 9222, target
defaulted to `"emulator"` when unset, cwd replaced by the resolved Cordova
project root, timeout set from attachTimeout); neither the Android nor the iOS
endpoint resolver is invoked, and the CDP proxy's application target port is
still set to the (defaulted) request port. -/
theorem C10_attach_passthrough (a : AttachArgsModel) (resolvedRoot : String)
    (h1 : jsLower (jsOrStr a.target "emulator") ≠ "device")
    (h2 : jsLower (jsOrStr a.target "emulator") ≠ "emulator") :
    attach a resolvedRoot =
      ⟨{ a with port := some (jsOrNum a.port 9222),
                target := some (jsOrStr a.target "emulator"),
                cwd := resolvedRoot, timeout := a.attachTimeout },
        jsOrNum a.port 9222, AttachBranch.passthrough⟩ := by
  unfold attach
  simp [h1, h2]

/-- C10, witness: a `"chrome"`-target attach request passes through with only
the normalized fields changed and the proxy port set to the default 9222. -/
theorem C10_witness :
    jsLower (jsOrStr (some "chrome") "emulator") ≠ "device" ∧
    attach ⟨some "android", none, some "chrome", "/proj", some 30000, none⟩ "/root/proj" =
      ⟨⟨some "android", some 9222, some "chrome", "/root/proj", some 30000, some 30000⟩,
        9222, AttachBranch.passthrough⟩ :=
  ⟨by decide,
    C10_attach_passthrough ⟨some "android", none, some "chrome", "/proj", some 30000, none⟩
      "/root/proj" (by decide) (by decide)⟩
